import Mathlib

/-!
# Package `tenant`: URM error taxonomy and the organization logging middleware

A shallow embedding of `tenant/error_urm.go` and
`tenant/middleware_org_logging.go`, followed by theorems about them.

Conventions of the embedding:

* a Go `error` interface value is `Option GoError` (`none` is `nil`);
* `fmt.Sprintf` is an interpreter over the format string, restricted to the
  verbs and operand kinds the package uses;
* effects (the wrapped service, the logger, the clock) are explicit state
  passing over a `World`.
-/

namespace tenant

/-! ## Go values used by the package -/

/-- A non-nil value of Go's `error` interface: the text its `Error()` method
returns, and a tag for its identity (two distinct error values may print the
same text). -/
structure GoError where
  Error : String
  tag : Nat
  deriving DecidableEq, Repr

/-- The type `influxdb.ID` is an unsigned 64-bit identifier; the package does no
arithmetic on it, it only passes it on and asks for its string form. -/
abbrev ID := Nat

/-- Modelled from the spec: the error kinds `influxdb.EInvalid`,
`influxdb.ENotFound`, `influxdb.EInternal`, `influxdb.EUnprocessableEntity`
(constants of package `influxdb`, declared outside these files); the spec's data
model lists them as the enum Invalid, NotFound, Internal, UnprocessableEntity. -/
inductive Code where
  | EInvalid
  | ENotFound
  | EInternal
  | EUnprocessableEntity
  deriving DecidableEq, Repr

/-- Modelled from the spec: the struct `influxdb.Error` (declared outside these
files), "kind, message, operation, wrapped cause". A field that a composite
literal leaves out has Go's zero value: the empty string for `Op`, `nil` for
`Err`. -/
structure Error where
  Code : Code
  Msg : String
  Op : String := ""
  Err : Option GoError := none
  deriving DecidableEq, Repr

/-! ## `fmt.Sprintf` -/

namespace fmt

/-- An operand of `Sprintf`, by the way package `fmt` prints it: an `error`
interface value, a `string`, or a value with a `String()` method (given by the
text that method returns). -/
inductive Arg where
  | error (e : Option GoError)
  | string (s : String)
  | stringer (s : String)
  deriving DecidableEq, Repr

/-- Text of one operand under verb `v` (`%v` or `%s`): an error prints its
`Error()` text, a string prints itself, a Stringer prints its `String()` text;
a nil interface prints `<nil>` under `%v` and `%!s(<nil>)` under `%s`. -/
def Arg.render (v : Char) : Arg → List Char
  | .error (some e) => e.Error.data
  | .error none => if v = 'v' then "<nil>".data else '%' :: '!' :: v :: "(<nil>)".data
  | .string s => s.data
  | .stringer s => s.data

/-- The scan of the format: plain characters are copied, `%%` prints a percent
sign, a verb consumes the next operand; a verb without an operand prints
`%!v(MISSING)`, a percent sign that ends the format prints `%!(NOVERB)`. Only
the verbs `%v` and `%s` are interpreted (the package uses no other), and
operands left over at the end of the format are not printed (every call in the
package has one verb and one operand). -/
def scan : List Char → List Arg → List Char
  | [], _ => []
  | c :: rest, args =>
    if c = '%' then
      match rest, args with
      | [], _ => "%!(NOVERB)".data
      | v :: rest', [] =>
        if v = '%' then '%' :: scan rest' []
        else '%' :: '!' :: v :: ("(MISSING)".data ++ scan rest' [])
      | v :: rest', a :: args' =>
        if v = '%' then '%' :: scan rest' (a :: args')
        else a.render v ++ scan rest' args'
    else c :: scan rest args

/-- The function `fmt.Sprintf(format, args...)`. -/
def Sprintf (format : String) (args : List Arg) : String :=
  ⟨scan format.data args⟩

end fmt

/-! ## `error_urm.go` -/

/-- The variable `ErrInvalidURMID`: the service was given an ID of invalid
format. -/
def ErrInvalidURMID : Error :=
  { Code := Code.EInvalid
    Msg := "provided user resource mapping ID has invalid format" }

/-- The variable `ErrURMNotFound`: the user resource mapping is not found. -/
def ErrURMNotFound : Error :=
  { Msg := "user to resource mapping not found"
    Code := Code.ENotFound }

/-- The function `UnavailableURMServiceError(err)`: the store is not available. -/
def UnavailableURMServiceError (err : Option GoError) : Error :=
  { Code := Code.EInternal
    Msg := fmt.Sprintf "Unable to connect to resource mapping service. Please try again; Err: %v" [.error err]
    Op := "kv/userResourceMapping" }

/-- The function `CorruptURMError(err)`: the stored bytes cannot be
unmarshalled. -/
def CorruptURMError (err : Option GoError) : Error :=
  { Code := Code.EInternal
    Msg := fmt.Sprintf "Unknown internal user resource mapping data error; Err: %v" [.error err]
    Op := "kv/userResourceMapping" }

/-- The function `ErrUnprocessableMapping(err)`: a mapping cannot be converted
to JSON. -/
def ErrUnprocessableMapping (err : Option GoError) : Error :=
  { Code := Code.EUnprocessableEntity
    Msg := fmt.Sprintf "unable to convert mapping of user to resource into JSON; Err %v" [.error err] }

/-- The function `NonUniqueMappingError(userID)`: the user is already mapped to
the resource. The method `influxdb.ID.String` is declared outside these files
and is the parameter `idString`. -/
def NonUniqueMappingError (idString : ID → String) (userID : ID) : Error :=
  { Code := Code.EInternal
    Msg := fmt.Sprintf "Unexpected error when assigning user to a resource: mapping for user %s already exists" [.string (idString userID)] }

/-! ## The package's errors in memory

The two package variables hold pointers to `influxdb.Error` structs allocated
when the package is initialised, and each factory function returns a pointer to
a struct it allocates. The definitions above are the composite literals; here
they are placed in a memory, so that what a caller obtains can be compared
across different histories of the package. -/

/-- The memory of the package: the `influxdb.Error` structs allocated so far (a
pointer is a position in `heap`) and the pointers held by the two package
variables. -/
structure Memory where
  heap : List Error
  varErrInvalidURMID : Nat
  varErrURMNotFound : Nat
  deriving DecidableEq, Repr

/-- The memory after package initialisation: the two `var` declarations have
allocated their literals. -/
def Memory.init : Memory :=
  { heap := [ErrInvalidURMID, ErrURMNotFound]
    varErrInvalidURMID := 0
    varErrURMNotFound := 1 }

/-- The expression `&influxdb.Error{...}`: allocate the struct, give its
pointer. -/
def Memory.new (e : Error) (m : Memory) : Nat × Memory :=
  (m.heap.length, { m with heap := m.heap ++ [e] })

/-- The struct a pointer points to, if it is allocated. -/
def Memory.load (m : Memory) (p : Nat) : Option Error :=
  m.heap[p]?

/-- One use of the package's error API: reading one of the two variables or
calling one of the four functions with its argument. These are all the
statements of `error_urm.go` that touch the memory; a write through one of the
pointers by code outside the package is not among them. -/
inductive Use where
  | ErrInvalidURMID
  | ErrURMNotFound
  | UnavailableURMServiceError (err : Option GoError)
  | CorruptURMError (err : Option GoError)
  | ErrUnprocessableMapping (err : Option GoError)
  | NonUniqueMappingError (userID : ID)
  deriving DecidableEq, Repr

/-- What a use does to the memory and the pointer it yields: a variable is
read, a function allocates its literal and returns the pointer. -/
def Memory.use (idString : ID → String) (m : Memory) : Use → Nat × Memory
  | .ErrInvalidURMID => (m.varErrInvalidURMID, m)
  | .ErrURMNotFound => (m.varErrURMNotFound, m)
  | .UnavailableURMServiceError err => m.new (tenant.UnavailableURMServiceError err)
  | .CorruptURMError err => m.new (tenant.CorruptURMError err)
  | .ErrUnprocessableMapping err => m.new (tenant.ErrUnprocessableMapping err)
  | .NonUniqueMappingError userID => m.new (tenant.NonUniqueMappingError idString userID)

/-- A history of uses, oldest first, carried out from the memory `m`. -/
def Memory.run (idString : ID → String) (m : Memory) : List Use → Memory
  | [] => m
  | u :: us => Memory.run idString (m.use idString u).2 us

/-- The error a caller obtains by a use: the struct behind the pointer the use
yields, in the memory the use leaves. -/
def Memory.obtain (idString : ID → String) (m : Memory) (u : Use) : Option Error :=
  (m.use idString u).2.load (m.use idString u).1

/-- The variables still point to their initial structs. -/
def Memory.Intact (m : Memory) : Prop :=
  m.load m.varErrInvalidURMID = some ErrInvalidURMID ∧
  m.load m.varErrURMNotFound = some ErrURMNotFound

/-! ## The environment of the middleware -/

namespace time

/-- The clock behind `time.Now`: a reading in nanoseconds, taken off the state
of the environment. -/
structure Clock (σ : Type) where
  Now : σ → Int

/-- The type `time.Duration` is a signed 64-bit count of nanoseconds;
`Time.Sub` saturates at its bounds. -/
def saturate (d : Int) : Int :=
  if d < -(2 ^ 63) then -(2 ^ 63) else if 2 ^ 63 - 1 < d then 2 ^ 63 - 1 else d

/-- The function `time.Since(start)`, which is `time.Now().Sub(start)`. -/
def Since {σ : Type} (clock : Clock σ) (s : σ) (start : Int) : Int :=
  saturate (clock.Now s - start)

end time

namespace zap

/-- The levels of a log entry. -/
inductive Level where
  | Debug | Info | Warn | Error | DPanic | Panic | Fatal
  deriving DecidableEq, Repr

/-- A field of a log entry, for the constructors the package calls. -/
inductive Field where
  | Skip
  | Error (key : String) (err : GoError)
  | Duration (key : String) (d : Int)
  deriving DecidableEq, Repr

/-- The function `zap.Error(err)`: the field named "error" holding `err`, a
no-op field for a nil error. -/
def Error : Option GoError → Field
  | none => Field.Skip
  | some e => Field.Error "error" e

/-- The function `zap.Duration(key, d)`. -/
def Duration (key : String) (d : Int) : Field :=
  Field.Duration key d

/-- One leveled write to the logger. -/
structure Entry where
  level : Level
  msg : String
  fields : List Field
  deriving DecidableEq, Repr

end zap

/-- The arguments of one invocation of a method of the wrapped
`influxdb.OrganizationService`. -/
inductive Call (Ctx Org Filter Upd Opt : Type) where
  | CreateOrganization (ctx : Ctx) (u : Org)
  | FindOrganizationByID (ctx : Ctx) (id : ID)
  | FindOrganization (ctx : Ctx) (filter : Filter)
  | FindOrganizations (ctx : Ctx) (filter : Filter) (opt : List Opt)
  | UpdateOrganization (ctx : Ctx) (id : ID) (upd : Upd)
  | DeleteOrganization (ctx : Ctx) (id : ID)
  deriving DecidableEq, Repr

/-- The names of the six methods of `influxdb.OrganizationService`. -/
inductive Method where
  | CreateOrganization
  | FindOrganizationByID
  | FindOrganization
  | FindOrganizations
  | UpdateOrganization
  | DeleteOrganization
  deriving DecidableEq, Repr

/-- The method a call invokes. -/
def Call.method {Ctx Org Filter Upd Opt : Type} : Call Ctx Org Filter Upd Opt → Method
  | .CreateOrganization _ _ => .CreateOrganization
  | .FindOrganizationByID _ _ => .FindOrganizationByID
  | .FindOrganization _ _ => .FindOrganization
  | .FindOrganizations _ _ _ => .FindOrganizations
  | .UpdateOrganization _ _ _ => .UpdateOrganization
  | .DeleteOrganization _ _ => .DeleteOrganization

/-- What an invocation returned, by result shape: `error`,
`(*Organization, error)`, `([]*Organization, int, error)`. -/
inductive Ret (Org : Type) where
  | err (e : Option GoError)
  | org (u : Org) (e : Option GoError)
  | orgs (us : List Org) (n : Int) (e : Option GoError)
  deriving DecidableEq, Repr

/-- One completed invocation of the wrapped service: what it received and what
it returned. -/
structure Invocation (Ctx Org Filter Upd Opt : Type) where
  call : Call Ctx Org Filter Upd Opt
  ret : Ret Org

/-- The interface `influxdb.OrganizationService` as the middleware uses it: six
methods, each a transition of the environment state `σ` that returns its
results. `Org` stands for `*influxdb.Organization`, `Filter` for
`influxdb.OrganizationFilter`, `Upd` for `influxdb.OrganizationUpdate`, `Opt`
for `influxdb.FindOptions`, `Ctx` for `context.Context`; the middleware never
looks inside them. -/
structure OrganizationService (Ctx Org Filter Upd Opt σ : Type) where
  CreateOrganization : Ctx → Org → σ → Option GoError × σ
  FindOrganizationByID : Ctx → ID → σ → (Org × Option GoError) × σ
  FindOrganization : Ctx → Filter → σ → (Org × Option GoError) × σ
  FindOrganizations : Ctx → Filter → List Opt → σ → (List Org × Int × Option GoError) × σ
  UpdateOrganization : Ctx → ID → Upd → σ → (Org × Option GoError) × σ
  DeleteOrganization : Ctx → ID → σ → Option GoError × σ

/-- Everything a call of the middleware can change: the state of the
environment (the wrapped service's store, the clock), the invocations the
wrapped service has completed, and the writes the logger has received, both
oldest first. -/
structure World (Ctx Org Filter Upd Opt σ : Type) where
  state : σ
  calls : List (Invocation Ctx Org Filter Upd Opt)
  sink : List zap.Entry

section Middleware

variable {Ctx Org Filter Upd Opt σ : Type}

/-- The method `(*zap.Logger).Error(msg, fields...)`: one error-level write. -/
def World.Error (w : World Ctx Org Filter Upd Opt σ) (msg : String) (fields : List zap.Field) :
    World Ctx Org Filter Upd Opt σ :=
  { w with sink := w.sink ++ [⟨zap.Level.Error, msg, fields⟩] }

/-- The method `(*zap.Logger).Info(msg, fields...)`: one info-level write. -/
def World.Info (w : World Ctx Org Filter Upd Opt σ) (msg : String) (fields : List zap.Field) :
    World Ctx Org Filter Upd Opt σ :=
  { w with sink := w.sink ++ [⟨zap.Level.Info, msg, fields⟩] }

/-- A completed invocation: the environment moves to `s` and the invocation is
recorded. -/
def World.invoked (w : World Ctx Org Filter Upd Opt σ) (c : Call Ctx Org Filter Upd Opt)
    (r : Ret Org) (s : σ) : World Ctx Org Filter Upd Opt σ :=
  { w with state := s, calls := w.calls ++ [⟨c, r⟩] }

/-- The struct `OrgLogger`. Its `logger` writes to `World.sink`; the clock
that `time.Now` reads is held here as well. -/
structure OrgLogger (Ctx Org Filter Upd Opt σ : Type) where
  clock : time.Clock σ
  orgService : OrganizationService Ctx Org Filter Upd Opt σ

/-- The function `NewOrgLogger(log, s)`. -/
def NewOrgLogger (clock : time.Clock σ) (s : OrganizationService Ctx Org Filter Upd Opt σ) :
    OrgLogger Ctx Org Filter Upd Opt σ :=
  { clock := clock, orgService := s }

/-! ## `middleware_org_logging.go`

Each method reads the clock (the operand of the `defer` statement), invokes the
wrapped method, and then runs the deferred function on the named result `err`
before returning the results. A wrapped method is a total function here: the
methods are described for invocations that return. -/

/-- The method `(*OrgLogger).CreateOrganization(ctx, u)`. -/
def OrgLogger.CreateOrganization (l : OrgLogger Ctx Org Filter Upd Opt σ) (ctx : Ctx) (u : Org)
    (w : World Ctx Org Filter Upd Opt σ) : Option GoError × World Ctx Org Filter Upd Opt σ :=
  let start := l.clock.Now w.state
  let (err, s) := l.orgService.CreateOrganization ctx u w.state
  let w1 := w.invoked (.CreateOrganization ctx u) (.err err) s
  let dur := zap.Duration "took" (time.Since l.clock w1.state start)
  match err with
  | some _ => (err, w1.Error "failed to create org" [zap.Error err, dur])
  | none => (err, w1.Info "org create" [dur])

/-- The method `(*OrgLogger).FindOrganizationByID(ctx, id)`. -/
def OrgLogger.FindOrganizationByID (idString : ID → String)
    (l : OrgLogger Ctx Org Filter Upd Opt σ) (ctx : Ctx) (id : ID)
    (w : World Ctx Org Filter Upd Opt σ) :
    (Org × Option GoError) × World Ctx Org Filter Upd Opt σ :=
  let start := l.clock.Now w.state
  let ((u, err), s) := l.orgService.FindOrganizationByID ctx id w.state
  let w1 := w.invoked (.FindOrganizationByID ctx id) (.org u err) s
  let dur := zap.Duration "took" (time.Since l.clock w1.state start)
  match err with
  | some _ =>
    let msg := fmt.Sprintf "failed to find org with ID %v" [.stringer (idString id)]
    ((u, err), w1.Error msg [zap.Error err, dur])
  | none => ((u, err), w1.Info "org find by ID" [dur])

/-- The method `(*OrgLogger).FindOrganization(ctx, filter)`. -/
def OrgLogger.FindOrganization (l : OrgLogger Ctx Org Filter Upd Opt σ) (ctx : Ctx)
    (filter : Filter) (w : World Ctx Org Filter Upd Opt σ) :
    (Org × Option GoError) × World Ctx Org Filter Upd Opt σ :=
  let start := l.clock.Now w.state
  let ((u, err), s) := l.orgService.FindOrganization ctx filter w.state
  let w1 := w.invoked (.FindOrganization ctx filter) (.org u err) s
  let dur := zap.Duration "took" (time.Since l.clock w1.state start)
  match err with
  | some _ => ((u, err), w1.Error "failed to find org matching the given filter" [zap.Error err, dur])
  | none => ((u, err), w1.Info "org find" [dur])

/-- The method `(*OrgLogger).FindOrganizations(ctx, filter, opt...)`. The call
of the wrapped method is `l.orgService.FindOrganizations(ctx, filter)`: it has
no variadic operand, so the wrapped method gets the nil slice. -/
def OrgLogger.FindOrganizations (l : OrgLogger Ctx Org Filter Upd Opt σ) (ctx : Ctx)
    (filter : Filter) (_opt : List Opt) (w : World Ctx Org Filter Upd Opt σ) :
    (List Org × Int × Option GoError) × World Ctx Org Filter Upd Opt σ :=
  let start := l.clock.Now w.state
  let ((orgs, n, err), s) := l.orgService.FindOrganizations ctx filter [] w.state
  let w1 := w.invoked (.FindOrganizations ctx filter []) (.orgs orgs n err) s
  let dur := zap.Duration "took" (time.Since l.clock w1.state start)
  match err with
  | some _ =>
    ((orgs, n, err), w1.Error "failed to find org matching the given filter" [zap.Error err, dur])
  | none => ((orgs, n, err), w1.Info "orgs find" [dur])

/-- The method `(*OrgLogger).UpdateOrganization(ctx, id, upd)`. -/
def OrgLogger.UpdateOrganization (l : OrgLogger Ctx Org Filter Upd Opt σ) (ctx : Ctx) (id : ID)
    (upd : Upd) (w : World Ctx Org Filter Upd Opt σ) :
    (Org × Option GoError) × World Ctx Org Filter Upd Opt σ :=
  let start := l.clock.Now w.state
  let ((u, err), s) := l.orgService.UpdateOrganization ctx id upd w.state
  let w1 := w.invoked (.UpdateOrganization ctx id upd) (.org u err) s
  let dur := zap.Duration "took" (time.Since l.clock w1.state start)
  match err with
  | some _ => ((u, err), w1.Error "failed to update org" [zap.Error err, dur])
  | none => ((u, err), w1.Info "org update" [dur])

/-- The method `(*OrgLogger).DeleteOrganization(ctx, id)`. -/
def OrgLogger.DeleteOrganization (idString : ID → String)
    (l : OrgLogger Ctx Org Filter Upd Opt σ) (ctx : Ctx) (id : ID)
    (w : World Ctx Org Filter Upd Opt σ) : Option GoError × World Ctx Org Filter Upd Opt σ :=
  let start := l.clock.Now w.state
  let (err, s) := l.orgService.DeleteOrganization ctx id w.state
  let w1 := w.invoked (.DeleteOrganization ctx id) (.err err) s
  let dur := zap.Duration "took" (time.Since l.clock w1.state start)
  match err with
  | some _ =>
    let msg := fmt.Sprintf "failed to delete org with ID %v" [.stringer (idString id)]
    (err, w1.Error msg [zap.Error err, dur])
  | none => (err, w1.Info "org delete" [dur])

/-- The wrapped service carrying out a call: the method of that name applied to
the call's arguments. -/
def OrganizationService.run (svc : OrganizationService Ctx Org Filter Upd Opt σ) :
    Call Ctx Org Filter Upd Opt → σ → Ret Org × σ
  | .CreateOrganization ctx u, s =>
    let (err, s1) := svc.CreateOrganization ctx u s
    (.err err, s1)
  | .FindOrganizationByID ctx id, s =>
    let ((u, err), s1) := svc.FindOrganizationByID ctx id s
    (.org u err, s1)
  | .FindOrganization ctx filter, s =>
    let ((u, err), s1) := svc.FindOrganization ctx filter s
    (.org u err, s1)
  | .FindOrganizations ctx filter opt, s =>
    let ((orgs, n, err), s1) := svc.FindOrganizations ctx filter opt s
    (.orgs orgs n err, s1)
  | .UpdateOrganization ctx id upd, s =>
    let ((u, err), s1) := svc.UpdateOrganization ctx id upd s
    (.org u err, s1)
  | .DeleteOrganization ctx id, s =>
    let (err, s1) := svc.DeleteOrganization ctx id s
    (.err err, s1)

/-- The error among the results of an invocation. -/
def Ret.error : Ret Org → Option GoError
  | .err e => e
  | .org _ e => e
  | .orgs _ _ e => e

/-- A call of the middleware passes through: starting from `w` it ends in `w1`
having made exactly one invocation of the wrapped method `m`, whose results
are `r`, the results the middleware returns. -/
def PassesThrough (svc : OrganizationService Ctx Org Filter Upd Opt σ) (m : Method)
    (w w1 : World Ctx Org Filter Upd Opt σ) (r : Ret Org) : Prop :=
  ∃ c : Call Ctx Org Filter Upd Opt, c.method = m ∧
    w1.calls = w.calls ++ [⟨c, r⟩] ∧ svc.run c w.state = (r, w1.state)

/-- A call of the middleware logs once: from `w` to `w1` the wrapped service
`svc` carries out exactly one call `c` of the method `m` on the state at `w`,
and the sink gains exactly one entry; when `svc` returned a nil error from
that call the entry is info-level and has the duration field, when it returned
a non-nil error the entry is error-level and has the duration field and that
error. The duration is the time since the clock reading at `w`. -/
def LogsOnce (svc : OrganizationService Ctx Org Filter Upd Opt σ) (m : Method)
    (clock : time.Clock σ) (w w1 : World Ctx Org Filter Upd Opt σ) : Prop :=
  ∃ (c : Call Ctx Org Filter Upd Opt) (entry : zap.Entry),
    c.method = m ∧
    w1.calls = w.calls ++ [⟨c, (svc.run c w.state).1⟩] ∧
    w1.state = (svc.run c w.state).2 ∧
    w1.sink = w.sink ++ [entry] ∧
    zap.Field.Duration "took" (time.Since clock w1.state (clock.Now w.state)) ∈ entry.fields ∧
    match (svc.run c w.state).1.error with
    | none => entry.level = zap.Level.Info
    | some e => entry.level = zap.Level.Error ∧ zap.Field.Error "error" e ∈ entry.fields

/-- The text `s` occurs in the text `t`. -/
def Occurs (s t : String) : Prop :=
  s.data <:+: t.data

instance (s t : String) : Decidable (Occurs s t) :=
  inferInstanceAs (Decidable (s.data <:+: t.data))

/-- The texts a field holds: its key and, for an error field, the error's
text (a duration is a number). -/
def zap.Field.texts : zap.Field → List String
  | .Skip => []
  | .Error key err => [key, err.Error]
  | .Duration key _ => [key]

/-- The text `s` occurs in the entry: in its message or in one of its fields. -/
def zap.Entry.Mentions (entry : zap.Entry) (s : String) : Prop :=
  Occurs s entry.msg ∨ ∃ f ∈ entry.fields, ∃ t ∈ f.texts, Occurs s t

end Middleware

/-! ## A concrete service, for evaluating the middleware -/

namespace Example

/-- The sixteen hexadecimal digits of an identifier, the empty text for the
invalid identifier 0. -/
def idString (id : ID) : String :=
  if id = 0 then ""
  else ⟨(List.range 16).reverse.map fun i => "0123456789abcdef".data.getD (id / 16 ^ i % 16) '0'⟩

/-- The error the example service fails with. -/
def notFound : GoError :=
  ⟨"organization not found", 1⟩

/-- The organizations the example service holds. -/
def stored : List String :=
  ["org-a", "org-b", "org-c"]

/-- A service over a state that is the clock reading. Creating succeeds; the
operations on an ID fail with `notFound`; `FindOrganizations` returns the
stored organizations, no more of them than the limit of the first option when
there is one. Options are limits, an organization is its name. -/
def service : OrganizationService Unit String Unit Unit Nat Int where
  CreateOrganization _ _ s := (none, s + 3)
  FindOrganizationByID _ _ s := (("", some notFound), s + 5)
  FindOrganization _ _ s := (("org-a", none), s + 2)
  FindOrganizations _ _ opt s :=
    match opt with
    | [] => ((stored, stored.length, none), s + 7)
    | limit :: _ => ((stored.take limit, (stored.take limit).length, none), s + 7)
  UpdateOrganization _ _ _ s := (("", some notFound), s + 5)
  DeleteOrganization _ _ s := (some notFound, s + 5)

/-- The middleware around the example service. -/
def logger : OrgLogger Unit String Unit Unit Nat Int :=
  NewOrgLogger ⟨fun s => s⟩ service

/-- The world before the call: clock at 100, nothing invoked, nothing logged. -/
def w0 : World Unit String Unit Unit Nat Int :=
  ⟨100, [], []⟩

end Example

/-! ## Theorems: the error taxonomy -/

theorem UnavailableURMServiceError_Msg (e : GoError) :
    (UnavailableURMServiceError (some e)).Msg
      = "Unable to connect to resource mapping service. Please try again; Err: " ++ e.Error := by
  apply String.ext
  simp [UnavailableURMServiceError, fmt.Sprintf, fmt.scan, fmt.Arg.render]

theorem CorruptURMError_Msg (e : GoError) :
    (CorruptURMError (some e)).Msg
      = "Unknown internal user resource mapping data error; Err: " ++ e.Error := by
  apply String.ext
  simp [CorruptURMError, fmt.Sprintf, fmt.scan, fmt.Arg.render]

theorem ErrUnprocessableMapping_Msg (e : GoError) :
    (ErrUnprocessableMapping (some e)).Msg
      = "unable to convert mapping of user to resource into JSON; Err " ++ e.Error := by
  apply String.ext
  simp [ErrUnprocessableMapping, fmt.Sprintf, fmt.scan, fmt.Arg.render]

theorem NonUniqueMappingError_Msg (idString : ID → String) (userID : ID) :
    (NonUniqueMappingError idString userID).Msg
      = "Unexpected error when assigning user to a resource: mapping for user "
        ++ idString userID ++ " already exists" := by
  apply String.ext
  simp [NonUniqueMappingError, fmt.Sprintf, fmt.scan, fmt.Arg.render]

theorem String_append_left_cancel (p a b : String) (h : p ++ a = p ++ b) : a = b := by
  apply String.ext
  have := congrArg String.data h
  simpa using this

theorem String_append_right_cancel (a b q : String) (h : a ++ q = b ++ q) : a = b := by
  apply String.ext
  have := congrArg String.data h
  simpa using this

theorem Occurs_middle (p s q : String) : Occurs s (p ++ s ++ q) := by
  refine ⟨p.data, q.data, ?_⟩
  simp

/-- C5. The kind of each factory's result is fixed by the factory, whatever the
cause or the user ID: ErrInvalidURMID is Invalid, ErrURMNotFound is NotFound,
UnavailableURMServiceError and CorruptURMError are Internal,
ErrUnprocessableMapping is UnprocessableEntity, NonUniqueMappingError is
Internal. -/
theorem C5_kind_fixed_by_factory (cause : Option GoError) (idString : ID → String) (userID : ID) :
    ErrInvalidURMID.Code = Code.EInvalid ∧
    ErrURMNotFound.Code = Code.ENotFound ∧
    (UnavailableURMServiceError cause).Code = Code.EInternal ∧
    (CorruptURMError cause).Code = Code.EInternal ∧
    (ErrUnprocessableMapping cause).Code = Code.EUnprocessableEntity ∧
    (NonUniqueMappingError idString userID).Code = Code.EInternal :=
  ⟨rfl, rfl, rfl, rfl, rfl, rfl⟩

/-- C6. For a non-nil cause `e`, the message of each cause-taking factory is its
fixed text followed by the whole text of `e` and nothing else. -/
theorem C6_cause_text_verbatim (e : GoError) :
    (UnavailableURMServiceError (some e)).Msg
      = "Unable to connect to resource mapping service. Please try again; Err: " ++ e.Error ∧
    (CorruptURMError (some e)).Msg
      = "Unknown internal user resource mapping data error; Err: " ++ e.Error ∧
    (ErrUnprocessableMapping (some e)).Msg
      = "unable to convert mapping of user to resource into JSON; Err " ++ e.Error :=
  ⟨UnavailableURMServiceError_Msg e, CorruptURMError_Msg e, ErrUnprocessableMapping_Msg e⟩

/-- C7. The message of NonUniqueMappingError(userID) is the fixed text ending in
"mapping for user ", then the string form of the ID, then " already exists"; the
string form occurs in the message; and two IDs give the same message exactly
when their string forms are the same. -/
theorem C7_message_has_user_id (idString : ID → String) (userID other : ID) :
    (NonUniqueMappingError idString userID).Msg
      = "Unexpected error when assigning user to a resource: mapping for user "
        ++ idString userID ++ " already exists" ∧
    Occurs (idString userID) (NonUniqueMappingError idString userID).Msg ∧
    ((NonUniqueMappingError idString userID).Msg = (NonUniqueMappingError idString other).Msg
      ↔ idString userID = idString other) := by
  refine ⟨NonUniqueMappingError_Msg idString userID, ?_, ?_, ?_⟩
  · rw [NonUniqueMappingError_Msg]
    exact Occurs_middle _ _ _
  · intro h
    rw [NonUniqueMappingError_Msg, NonUniqueMappingError_Msg, String.append_assoc,
      String.append_assoc] at h
    exact String_append_right_cancel _ _ _ (String_append_left_cancel _ _ _ h)
  · intro h
    rw [NonUniqueMappingError_Msg, NonUniqueMappingError_Msg, h]

/-- C7, at the IDs 42 and 43 with the hexadecimal string form: the messages
differ. -/
theorem C7_message_has_user_id_witness :
    ¬ (NonUniqueMappingError Example.idString 42).Msg
        = (NonUniqueMappingError Example.idString 43).Msg :=
  fun h => absurd ((C7_message_has_user_id Example.idString 42 43).2.2.1 h) (by decide)

/-- C8. ErrURMNotFound has kind NotFound, its message is the fixed text "user to
resource mapping not found", and it wraps no cause. -/
theorem C8_not_found_fixed :
    ErrURMNotFound.Code = Code.ENotFound ∧
    ErrURMNotFound.Msg = "user to resource mapping not found" ∧
    ErrURMNotFound.Err = none :=
  ⟨rfl, rfl, rfl⟩

theorem Memory.load_new (m : Memory) (e : Error) :
    (m.new e).2.load (m.new e).1 = some e := by
  simp [Memory.new, Memory.load]

theorem Memory.load_new_of_load (m : Memory) (e a : Error) (p : Nat)
    (h : m.load p = some a) : (m.new e).2.load p = some a := by
  simp only [Memory.load] at h
  simp only [Memory.new, Memory.load]
  have hp : p < m.heap.length := by
    rcases Nat.lt_or_ge p m.heap.length with hp | hp
    · exact hp
    · rw [List.getElem?_eq_none hp] at h
      exact absurd h (by simp)
  rw [List.getElem?_append_left hp]
  exact h

theorem Memory.Intact_new (m : Memory) (e : Error) (h : m.Intact) : (m.new e).2.Intact :=
  ⟨Memory.load_new_of_load m e _ _ h.1, Memory.load_new_of_load m e _ _ h.2⟩

theorem Memory.Intact_use (idString : ID → String) (m : Memory) (u : Use) (h : m.Intact) :
    (m.use idString u).2.Intact := by
  cases u <;> first | exact h | exact Memory.Intact_new m _ h

theorem Memory.Intact_run (idString : ID → String) (us : List Use) :
    ∀ m : Memory, m.Intact → (Memory.run idString m us).Intact := by
  induction us with
  | nil => intro m h; exact h
  | cons u us ih => intro m h; exact ih _ (Memory.Intact_use idString m u h)

theorem Memory.Intact_init : Memory.init.Intact :=
  ⟨rfl, rfl⟩

/-- The error a use obtains from an intact memory is the one it obtains right
after initialisation, whatever else the memory holds. -/
theorem Memory.obtain_of_Intact (idString : ID → String) (m : Memory) (h : m.Intact) (u : Use) :
    m.obtain idString u = Memory.init.obtain idString u := by
  cases u
  · exact h.1
  · exact h.2
  all_goals simp only [Memory.obtain, Memory.use, Memory.load_new]

/-- Every use obtains an error. -/
theorem Memory.obtain_init (idString : ID → String) (u : Use) :
    ∃ e, Memory.init.obtain idString u = some e := by
  cases u
  · exact ⟨_, rfl⟩
  · exact ⟨_, rfl⟩
  all_goals exact ⟨_, Memory.load_new _ _⟩

/-- C10. After any history of uses of the package, obtaining the invalid-ID
error yields kind Invalid and the message "provided user resource mapping ID has
invalid format", so two obtainings agree; and every variable or function of the
taxonomy, used with the same input after any two histories, yields errors with
the same kind, message and operation label: no use writes to a struct
allocated earlier nor reads one to build its result. -/
theorem C10_factories_deterministic (idString : ID → String) (history1 history2 : List Use)
    (u : Use) :
    (∃ e, (Memory.run idString Memory.init history1).obtain idString .ErrInvalidURMID = some e ∧
      (Memory.run idString Memory.init (history1 ++ .ErrInvalidURMID :: history2)).obtain idString
        .ErrInvalidURMID = some e ∧
      e.Code = Code.EInvalid ∧
      e.Msg = "provided user resource mapping ID has invalid format") ∧
    (∃ e1 e2, (Memory.run idString Memory.init history1).obtain idString u = some e1 ∧
      (Memory.run idString Memory.init history2).obtain idString u = some e2 ∧
      e1.Code = e2.Code ∧ e1.Msg = e2.Msg ∧ e1.Op = e2.Op) := by
  have h1 := Memory.Intact_run idString history1 _ Memory.Intact_init
  have h2 := Memory.Intact_run idString history2 _ Memory.Intact_init
  have h3 := Memory.Intact_run idString (history1 ++ .ErrInvalidURMID :: history2) _
    Memory.Intact_init
  refine ⟨⟨ErrInvalidURMID, h1.1, h3.1, rfl, rfl⟩, ?_⟩
  obtain ⟨e, he⟩ := Memory.obtain_init idString u
  exact ⟨e, e, (Memory.obtain_of_Intact idString _ h1 u).trans he,
    (Memory.obtain_of_Intact idString _ h2 u).trans he, rfl, rfl, rfl⟩

/-- C4, refuted: no non-empty label is the operation label of all six
factories, since ErrInvalidURMID has the empty label. -/
theorem C4_counterexample_empty_label :
    ErrInvalidURMID.Op = "" ∧
    ¬ ∃ label : String, label ≠ "" ∧
      ErrInvalidURMID.Op = label ∧ ErrURMNotFound.Op = label ∧
      (∀ e, (UnavailableURMServiceError e).Op = label) ∧
      (∀ e, (CorruptURMError e).Op = label) ∧
      (∀ e, (ErrUnprocessableMapping e).Op = label) ∧
      (∀ idString userID, (NonUniqueMappingError idString userID).Op = label) := by
  refine ⟨rfl, ?_⟩
  rintro ⟨label, hne, h, -⟩
  exact hne h.symm

/-- C4, amended. UnavailableURMServiceError and CorruptURMError give, for every
cause, the same non-empty operation label "kv/userResourceMapping"; the other
four factories give the empty label. -/
theorem C4_label_of_store_errors (cause : Option GoError) (idString : ID → String)
    (userID : ID) :
    (UnavailableURMServiceError cause).Op = "kv/userResourceMapping" ∧
    (CorruptURMError cause).Op = "kv/userResourceMapping" ∧
    "kv/userResourceMapping" ≠ "" ∧
    ErrInvalidURMID.Op = "" ∧
    ErrURMNotFound.Op = "" ∧
    (ErrUnprocessableMapping cause).Op = "" ∧
    (NonUniqueMappingError idString userID).Op = "" :=
  ⟨rfl, rfl, by decide, rfl, rfl, rfl, rfl⟩

/-! ## Theorems: the middleware -/

section MiddlewareTheorems

variable {Ctx Org Filter Upd Opt σ : Type}

theorem Sprintf_find_by_ID (t : String) :
    fmt.Sprintf "failed to find org with ID %v" [.stringer t]
      = "failed to find org with ID " ++ t := by
  apply String.ext
  simp [fmt.Sprintf, fmt.scan, fmt.Arg.render]

theorem Sprintf_delete (t : String) :
    fmt.Sprintf "failed to delete org with ID %v" [.stringer t]
      = "failed to delete org with ID " ++ t := by
  apply String.ext
  simp [fmt.Sprintf, fmt.scan, fmt.Arg.render]

theorem Occurs_suffix (p t : String) : Occurs t (p ++ t) := by
  refine ⟨p.data, [], ?_⟩
  simp

/-- The options given to the middleware do not reach the results: any two lists
of options give the same outcome. -/
theorem FindOrganizations_ignores_opt (l : OrgLogger Ctx Org Filter Upd Opt σ) (ctx : Ctx)
    (filter : Filter) (opt opt1 : List Opt) (w : World Ctx Org Filter Upd Opt σ) :
    l.FindOrganizations ctx filter opt w = l.FindOrganizations ctx filter opt1 w :=
  rfl

/-- C1. Each of the six methods makes exactly one invocation of the wrapped
method of the same name and returns the results and the error of that
invocation unchanged. -/
theorem C1_passes_through (idString : ID → String) (l : OrgLogger Ctx Org Filter Upd Opt σ)
    (w : World Ctx Org Filter Upd Opt σ) (ctx : Ctx) (u : Org) (id : ID) (filter : Filter)
    (opt : List Opt) (upd : Upd) :
    PassesThrough l.orgService .CreateOrganization w (l.CreateOrganization ctx u w).2
      (.err (l.CreateOrganization ctx u w).1) ∧
    PassesThrough l.orgService .FindOrganizationByID w (l.FindOrganizationByID idString ctx id w).2
      (.org (l.FindOrganizationByID idString ctx id w).1.1
        (l.FindOrganizationByID idString ctx id w).1.2) ∧
    PassesThrough l.orgService .FindOrganization w (l.FindOrganization ctx filter w).2
      (.org (l.FindOrganization ctx filter w).1.1 (l.FindOrganization ctx filter w).1.2) ∧
    PassesThrough l.orgService .FindOrganizations w (l.FindOrganizations ctx filter opt w).2
      (.orgs (l.FindOrganizations ctx filter opt w).1.1 (l.FindOrganizations ctx filter opt w).1.2.1
        (l.FindOrganizations ctx filter opt w).1.2.2) ∧
    PassesThrough l.orgService .UpdateOrganization w (l.UpdateOrganization ctx id upd w).2
      (.org (l.UpdateOrganization ctx id upd w).1.1 (l.UpdateOrganization ctx id upd w).1.2) ∧
    PassesThrough l.orgService .DeleteOrganization w (l.DeleteOrganization idString ctx id w).2
      (.err (l.DeleteOrganization idString ctx id w).1) := by
  refine ⟨?_, ?_, ?_, ?_, ?_, ?_⟩
  · refine ⟨.CreateOrganization ctx u, rfl, ?_⟩
    unfold OrgLogger.CreateOrganization OrganizationService.run
    rcases h : l.orgService.CreateOrganization ctx u w.state with ⟨err, s⟩
    cases err <;> simp [World.invoked, World.Error, World.Info, h]
  · refine ⟨.FindOrganizationByID ctx id, rfl, ?_⟩
    unfold OrgLogger.FindOrganizationByID OrganizationService.run
    rcases h : l.orgService.FindOrganizationByID ctx id w.state with ⟨⟨v, err⟩, s⟩
    cases err <;> simp [World.invoked, World.Error, World.Info, h]
  · refine ⟨.FindOrganization ctx filter, rfl, ?_⟩
    unfold OrgLogger.FindOrganization OrganizationService.run
    rcases h : l.orgService.FindOrganization ctx filter w.state with ⟨⟨v, err⟩, s⟩
    cases err <;> simp [World.invoked, World.Error, World.Info, h]
  · refine ⟨.FindOrganizations ctx filter [], rfl, ?_⟩
    unfold OrgLogger.FindOrganizations OrganizationService.run
    rcases h : l.orgService.FindOrganizations ctx filter [] w.state with ⟨⟨vs, n, err⟩, s⟩
    cases err <;> simp [World.invoked, World.Error, World.Info, h]
  · refine ⟨.UpdateOrganization ctx id upd, rfl, ?_⟩
    unfold OrgLogger.UpdateOrganization OrganizationService.run
    rcases h : l.orgService.UpdateOrganization ctx id upd w.state with ⟨⟨v, err⟩, s⟩
    cases err <;> simp [World.invoked, World.Error, World.Info, h]
  · refine ⟨.DeleteOrganization ctx id, rfl, ?_⟩
    unfold OrgLogger.DeleteOrganization OrganizationService.run
    rcases h : l.orgService.DeleteOrganization ctx id w.state with ⟨err, s⟩
    cases err <;> simp [World.invoked, World.Error, World.Info, h]

/-- C3. Each of the six methods adds exactly one entry to the sink: info-level
with the duration field when the wrapped method, called once on the state the
middleware was entered in, returned a nil error; error-level with the duration
field and that same error when it returned a non-nil error. -/
theorem C3_logs_once (idString : ID → String) (l : OrgLogger Ctx Org Filter Upd Opt σ)
    (w : World Ctx Org Filter Upd Opt σ) (ctx : Ctx) (u : Org) (id : ID) (filter : Filter)
    (opt : List Opt) (upd : Upd) :
    LogsOnce l.orgService .CreateOrganization l.clock w (l.CreateOrganization ctx u w).2 ∧
    LogsOnce l.orgService .FindOrganizationByID l.clock w
      (l.FindOrganizationByID idString ctx id w).2 ∧
    LogsOnce l.orgService .FindOrganization l.clock w (l.FindOrganization ctx filter w).2 ∧
    LogsOnce l.orgService .FindOrganizations l.clock w
      (l.FindOrganizations ctx filter opt w).2 ∧
    LogsOnce l.orgService .UpdateOrganization l.clock w (l.UpdateOrganization ctx id upd w).2 ∧
    LogsOnce l.orgService .DeleteOrganization l.clock w
      (l.DeleteOrganization idString ctx id w).2 := by
  refine ⟨?_, ?_, ?_, ?_, ?_, ?_⟩
  · rcases hr : l.orgService.CreateOrganization ctx u w.state with ⟨err, s⟩
    unfold LogsOnce
    refine ⟨.CreateOrganization ctx u, ?_⟩
    cases err <;>
      simp [OrgLogger.CreateOrganization, OrganizationService.run, hr, World.invoked, World.Error,
        World.Info, zap.Duration, zap.Error, Ret.error, Call.method]
  · rcases hr : l.orgService.FindOrganizationByID ctx id w.state with ⟨⟨v, err⟩, s⟩
    unfold LogsOnce
    refine ⟨.FindOrganizationByID ctx id, ?_⟩
    cases err <;>
      simp [OrgLogger.FindOrganizationByID, OrganizationService.run, hr, World.invoked, World.Error,
        World.Info, zap.Duration, zap.Error, Ret.error, Call.method]
  · rcases hr : l.orgService.FindOrganization ctx filter w.state with ⟨⟨v, err⟩, s⟩
    unfold LogsOnce
    refine ⟨.FindOrganization ctx filter, ?_⟩
    cases err <;>
      simp [OrgLogger.FindOrganization, OrganizationService.run, hr, World.invoked, World.Error,
        World.Info, zap.Duration, zap.Error, Ret.error, Call.method]
  · rcases hr : l.orgService.FindOrganizations ctx filter [] w.state with ⟨⟨vs, n, err⟩, s⟩
    unfold LogsOnce
    refine ⟨.FindOrganizations ctx filter [], ?_⟩
    cases err <;>
      simp [OrgLogger.FindOrganizations, OrganizationService.run, hr, World.invoked, World.Error,
        World.Info, zap.Duration, zap.Error, Ret.error, Call.method]
  · rcases hr : l.orgService.UpdateOrganization ctx id upd w.state with ⟨⟨v, err⟩, s⟩
    unfold LogsOnce
    refine ⟨.UpdateOrganization ctx id upd, ?_⟩
    cases err <;>
      simp [OrgLogger.UpdateOrganization, OrganizationService.run, hr, World.invoked, World.Error,
        World.Info, zap.Duration, zap.Error, Ret.error, Call.method]
  · rcases hr : l.orgService.DeleteOrganization ctx id w.state with ⟨err, s⟩
    unfold LogsOnce
    refine ⟨.DeleteOrganization ctx id, ?_⟩
    cases err <;>
      simp [OrgLogger.DeleteOrganization, OrganizationService.run, hr, World.invoked, World.Error,
        World.Info, zap.Duration, zap.Error, Ret.error, Call.method]

/-- C2, evaluated: called with the one option "limit 1", the middleware hands the
wrapped FindOrganizations the empty list of options and returns all three
stored organizations, where the wrapped method given that option returns
one. -/
theorem C2_FindOrganizations_drops_options :
    (Example.logger.FindOrganizations () () [1] Example.w0).2.calls.map (fun i => i.call)
      = [Call.FindOrganizations () () []] ∧
    (Example.logger.FindOrganizations () () [1] Example.w0).1
      = (["org-a", "org-b", "org-c"], 3, none) ∧
    (Example.service.FindOrganizations () () [1] Example.w0.state).1 = (["org-a"], 1, none) := by
  refine ⟨?_, ?_, ?_⟩ <;> decide

/-- C9, refuted at UpdateOrganization: the wrapped update of ID 42 fails, and
the one entry logged has the message "failed to update org", the error and the
duration; the string form of the ID, 000000000000002a, occurs nowhere in
it. -/
theorem C9_counterexample_UpdateOrganization :
    (Example.service.UpdateOrganization () 42 () Example.w0.state).1.2 = some Example.notFound ∧
    Example.idString 42 = "000000000000002a" ∧
    (Example.logger.UpdateOrganization () 42 () Example.w0).2.sink
      = [⟨.Error, "failed to update org",
          [.Error "error" Example.notFound, .Duration "took" 5]⟩] ∧
    ∀ entry ∈ (Example.logger.UpdateOrganization () 42 () Example.w0).2.sink,
      ¬ entry.Mentions (Example.idString 42) := by
  refine ⟨by decide, by decide, by decide, ?_⟩
  intro entry hmem
  have hs : (Example.logger.UpdateOrganization () 42 () Example.w0).2.sink
      = [⟨.Error, "failed to update org",
          [.Error "error" Example.notFound, .Duration "took" 5]⟩] := by decide
  rw [hs] at hmem
  simp only [List.mem_singleton] at hmem
  subst hmem
  have hid : Example.idString 42 = "000000000000002a" := by decide
  rw [hid]
  unfold zap.Entry.Mentions
  simp only [List.mem_cons, List.mem_singleton, List.not_mem_nil, or_false, exists_eq_or_imp,
    exists_eq_left, zap.Field.texts, not_or]
  decide

/-- C9, amended. When the wrapped method returns a non-nil error `e`, the entry
logged is error-level, with the error `e` and the duration; for
FindOrganizationByID and DeleteOrganization its message is "failed to find org
with ID " or "failed to delete org with ID " followed by the string form of the
ID, for UpdateOrganization it is the fixed text "failed to update org". -/
theorem C9_error_entry_of_ID_methods (idString : ID → String)
    (l : OrgLogger Ctx Org Filter Upd Opt σ) (w : World Ctx Org Filter Upd Opt σ) (ctx : Ctx)
    (id : ID) (upd : Upd) :
    (∀ e, (l.orgService.FindOrganizationByID ctx id w.state).1.2 = some e →
      (l.FindOrganizationByID idString ctx id w).2.sink = w.sink ++
        [⟨.Error, "failed to find org with ID " ++ idString id,
          [.Error "error" e, .Duration "took" (time.Since l.clock
            (l.orgService.FindOrganizationByID ctx id w.state).2 (l.clock.Now w.state))]⟩] ∧
      Occurs (idString id) ("failed to find org with ID " ++ idString id)) ∧
    (∀ e, (l.orgService.UpdateOrganization ctx id upd w.state).1.2 = some e →
      (l.UpdateOrganization ctx id upd w).2.sink = w.sink ++
        [⟨.Error, "failed to update org",
          [.Error "error" e, .Duration "took" (time.Since l.clock
            (l.orgService.UpdateOrganization ctx id upd w.state).2 (l.clock.Now w.state))]⟩]) ∧
    (∀ e, (l.orgService.DeleteOrganization ctx id w.state).1 = some e →
      (l.DeleteOrganization idString ctx id w).2.sink = w.sink ++
        [⟨.Error, "failed to delete org with ID " ++ idString id,
          [.Error "error" e, .Duration "took" (time.Since l.clock
            (l.orgService.DeleteOrganization ctx id w.state).2 (l.clock.Now w.state))]⟩] ∧
      Occurs (idString id) ("failed to delete org with ID " ++ idString id)) := by
  refine ⟨?_, ?_, ?_⟩
  · intro e he
    refine ⟨?_, Occurs_suffix _ _⟩
    unfold OrgLogger.FindOrganizationByID
    rcases h : l.orgService.FindOrganizationByID ctx id w.state with ⟨⟨v, err⟩, s⟩
    rw [h] at he
    simp only at he
    subst he
    simp [World.invoked, World.Error, zap.Duration, zap.Error, Sprintf_find_by_ID]
  · intro e he
    unfold OrgLogger.UpdateOrganization
    rcases h : l.orgService.UpdateOrganization ctx id upd w.state with ⟨⟨v, err⟩, s⟩
    rw [h] at he
    simp only at he
    subst he
    simp [World.invoked, World.Error, zap.Duration, zap.Error]
  · intro e he
    refine ⟨?_, Occurs_suffix _ _⟩
    unfold OrgLogger.DeleteOrganization
    rcases h : l.orgService.DeleteOrganization ctx id w.state with ⟨err, s⟩
    rw [h] at he
    simp only at he
    subst he
    simp [World.invoked, World.Error, zap.Duration, zap.Error, Sprintf_delete]

/-- C9, amended, at the example service and the ID 42: each of the three wrapped
methods fails with "organization not found" after 5 ns. -/
theorem C9_error_entry_of_ID_methods_witness :
    (Example.logger.FindOrganizationByID Example.idString () 42 Example.w0).2.sink
      = [⟨.Error, "failed to find org with ID " ++ Example.idString 42,
          [.Error "error" Example.notFound, .Duration "took" 5]⟩] ∧
    (Example.logger.UpdateOrganization () 42 () Example.w0).2.sink
      = [⟨.Error, "failed to update org",
          [.Error "error" Example.notFound, .Duration "took" 5]⟩] ∧
    (Example.logger.DeleteOrganization Example.idString () 42 Example.w0).2.sink
      = [⟨.Error, "failed to delete org with ID " ++ Example.idString 42,
          [.Error "error" Example.notFound, .Duration "took" 5]⟩] :=
  ⟨((C9_error_entry_of_ID_methods Example.idString Example.logger Example.w0 () 42 ()).1
      Example.notFound rfl).1,
    (C9_error_entry_of_ID_methods Example.idString Example.logger Example.w0 () 42 ()).2.1
      Example.notFound rfl,
    ((C9_error_entry_of_ID_methods Example.idString Example.logger Example.w0 () 42 ()).2.2
      Example.notFound rfl).1⟩

end MiddlewareTheorems

end tenant
